import Mathlib

/-!
Verification of the openclaw gateway ingress layer
(`src/gateway/server-http.ts`): the canvas capability registry, the canvas
auth resolver, the request router dispatch chain, and the upgrade gate.

Modelling conventions:
* JavaScript truthiness on optional strings / numbers is made explicit
  (`jsFalsyStr`, `jsFalsyNat`).
* Timestamps (`Date.now()` values, expiries, TTLs) are natural numbers of
  milliseconds.
* The in-place mutation of the shared session set is modelled by returning
  the updated session list alongside the boolean result.
* Helper modules of the repository that are not part of the corpus
  (`security/secret-equal.ts`, `gateway/auth.ts`, `gateway/http-utils.ts`,
  `gateway/protocol/client-info.ts`, `gateway/canvas-capability.ts`,
  `canvas-host/a2ui.ts`) are either modelled from the spec (the Secret
  Comparator) or abstracted as parameters / oracle inputs (the gateway
  connect check, the bearer-token extraction result, the client-mode
  normalizer, the TTL constant, the canvas path constants, the scoped-URL
  normalizer's result), so every theorem quantifies over their behaviour.
-/

/-- JS truthiness of an optional string: `undefined`/`null`/`""` are falsy. -/
def jsFalsyStr : Option String → Bool
  | none => true
  | some s => s == ""

/-- JS truthiness of an optional number: `undefined`/`null`/`0` are falsy. -/
def jsFalsyNat : Option Nat → Bool
  | none => true
  | some n => n == 0

/-- Modelled from the spec: the Secret Comparator `safeEqualSecret` from
`src/security/secret-equal.ts`, which is not in the corpus. Per spec §4.1,
`equals(a, b)` is true iff the two byte sequences are identical; the
constant-time execution requirement is a timing property with no functional
content in this embedding. -/
def safeEqualSecret (a b : String) : Bool := a == b

/-- One live WebSocket session (`GatewayWsClient`), restricted to the fields
the ingress layer reads: `connect.role`, `connect.client.mode`,
`canvasCapability`, `canvasCapabilityExpiresAtMs`. -/
structure GatewayWsClient where
  role : String
  clientMode : Option String
  canvasCapability : Option String
  canvasCapabilityExpiresAtMs : Option Nat
deriving DecidableEq, Repr

/-- Translation of `isNodeWsClient` from `server-http.ts`. The normalized client-mode test
(`normalizeGatewayClientMode(mode) === GATEWAY_CLIENT_MODES.NODE`, from
`gateway/protocol/client-info.ts`, not in the corpus) is taken as the
parameter `modeIsNode`, so the results hold for any normalizer. -/
def isNodeWsClient (modeIsNode : Option String → Bool) (c : GatewayWsClient) : Bool :=
  if c.role == ("node" : String) then true
  else modeIsNode c.clientMode

/-- The conditions under which one iteration of
`hasAuthorizedNodeWsClientForCanvasCapability` accepts a session: node class,
truthy stored capability and expiry, expiry strictly after `nowMs`, and the
stored capability equal to the presented one under the Secret Comparator. -/
def capMatches (modeIsNode : Option String → Bool) (nowMs : Nat) (capability : String)
    (c : GatewayWsClient) : Bool :=
  isNodeWsClient modeIsNode c
    && !jsFalsyStr c.canvasCapability
    && !jsFalsyNat c.canvasCapabilityExpiresAtMs
    && decide (nowMs < c.canvasCapabilityExpiresAtMs.getD 0)
    && safeEqualSecret (c.canvasCapability.getD ("" : String)) capability

/-- The sliding renewal performed on a matched session:
`client.canvasCapabilityExpiresAtMs = nowMs + CANVAS_CAPABILITY_TTL_MS`. -/
def renewClient (ttlMs nowMs : Nat) (c : GatewayWsClient) : GatewayWsClient :=
  { c with canvasCapabilityExpiresAtMs := some (nowMs + ttlMs) }

/-- Translation of `hasAuthorizedNodeWsClientForCanvasCapability` from `server-http.ts`.
The live session `Set` is modelled as a list traversed in iteration order;
the in-place expiry mutation of the first matching client is returned as the
second component. `CANVAS_CAPABILITY_TTL_MS` (from
`gateway/canvas-capability.ts`, not in the corpus) is the parameter
`ttlMs`, and `Date.now()` is the parameter `nowMs`. -/
def hasAuthorizedNodeWsClientForCanvasCapability (modeIsNode : Option String → Bool)
    (ttlMs nowMs : Nat) (clients : List GatewayWsClient) (capability : String) :
    Bool × List GatewayWsClient :=
  match clients with
  | [] => (false, [])
  | c :: rest =>
    if capMatches modeIsNode nowMs capability c then
      (true, renewClient ttlMs nowMs c :: rest)
    else
      let r := hasAuthorizedNodeWsClientForCanvasCapability modeIsNode ttlMs nowMs rest capability
      (r.1, c :: r.2)

/-- The denial reason string used throughout `server-http.ts`. -/
def unauthorizedReason : String := "unauthorized"

/-- A gateway authorization verdict (`GatewayAuthResult` from
`gateway/auth.ts`), restricted to the fields `server-http.ts` reads and
constructs: `ok`, `reason`, `rateLimited`, `retryAfterMs`. Absent JS fields
are the defaults. -/
structure GatewayAuthResult where
  ok : Bool
  reason : Option String := none
  rateLimited : Bool := false
  retryAfterMs : Option Nat := none
deriving DecidableEq, Repr

/-- The verdict `{ ok: false, reason: "unauthorized" }`. -/
def unauthorizedVerdict : GatewayAuthResult :=
  { ok := false, reason := some unauthorizedReason }

/-- The credential pair `server-http.ts` passes as `connectAuth` to the
gateway connect check. -/
structure ConnectAuth where
  token : String
  password : String
deriving DecidableEq, Repr

/-- Resolved gateway auth configuration (`ResolvedGatewayAuth` from
`gateway/auth.ts`), with the field shape used by the repository's own tests:
mode, token, password, allowTailscale. -/
structure ResolvedGatewayAuth where
  mode : String
  token : Option String := none
  password : Option String := none
  allowTailscale : Bool := false
deriving DecidableEq, Repr

/-- The type of the abstracted `authorizeGatewayConnect` check from
`gateway/auth.ts` (not in the corpus): it receives the auth configuration and
the presented credential pair and produces a verdict. The request, the
trusted-proxy list and the rate limiter it also receives in the source are
absorbed into the function value, so each theorem quantifies over them. -/
def AuthorizeGatewayConnect : Type :=
  ResolvedGatewayAuth → ConnectAuth → GatewayAuthResult

/-- The tail of `authorizeCanvasRequest` after the bearer attempt: consult
the capability registry when a capability token was extracted from the scoped
path, otherwise fall back to `lastAuthFailure ?? { ok: false, reason:
"unauthorized" }`. Split out of `authorizeCanvasRequest` only so the shared
fallback is written once. -/
def canvasCapabilityStep (modeIsNode : Option String → Bool) (ttlMs nowMs : Nat)
    (clients : List GatewayWsClient) (canvasCapability : Option String)
    (lastAuthFailure : Option GatewayAuthResult) :
    GatewayAuthResult × List GatewayWsClient :=
  if jsFalsyStr canvasCapability then
    (lastAuthFailure.getD unauthorizedVerdict, clients)
  else
    let r := hasAuthorizedNodeWsClientForCanvasCapability modeIsNode ttlMs nowMs clients
      (canvasCapability.getD ("" : String))
    if r.1 then ({ ok := true }, r.2)
    else (lastAuthFailure.getD unauthorizedVerdict, r.2)

/-- Translation of `authorizeCanvasRequest` from `server-http.ts`. Abstractions:
`agc` is the external `authorizeGatewayConnect`; `isLocalDirect` is the
result of `isLocalDirectRequest(req, trustedProxies)`; `bearerToken` is the
result of `getBearerToken(req)` (`none` for a missing header). The session
set before/after is threaded explicitly. -/
def authorizeCanvasRequest (agc : AuthorizeGatewayConnect)
    (modeIsNode : Option String → Bool) (ttlMs nowMs : Nat)
    (auth : ResolvedGatewayAuth) (isLocalDirect : Bool) (bearerToken : Option String)
    (clients : List GatewayWsClient) (canvasCapability : Option String)
    (malformedScopedPath : Bool) : GatewayAuthResult × List GatewayWsClient :=
  if malformedScopedPath then
    (unauthorizedVerdict, clients)
  else if isLocalDirect then
    ({ ok := true }, clients)
  else if jsFalsyStr bearerToken then
    canvasCapabilityStep modeIsNode ttlMs nowMs clients canvasCapability none
  else
    let t := bearerToken.getD ("" : String)
    let authResult := agc { auth with allowTailscale := false } { token := t, password := t }
    if authResult.ok then
      (authResult, clients)
    else
      canvasCapabilityStep modeIsNode ttlMs nowMs clients canvasCapability (some authResult)

/-- The fixed JSON body of the rate-limited upgrade failure
(`JSON.stringify` of the object literal in `writeUpgradeAuthFailure`). -/
def rateLimitedBodyJson : String :=
  "\x7b\"error\":\x7b\"message\":\"Too many failed authentication attempts. Please try again later.\",\"type\":\"rate_limited\"\x7d\x7d"

/-- Translation of `writeUpgradeAuthFailure` from `server-http.ts`, as the string written to
the raw socket. The source builds a line array containing `undefined` for the
absent Retry-After header and an empty-string separator line, applies
`.filter(Boolean)` — which removes both the `undefined` entry and the empty
string — and joins with CRLF; the model mirrors that exactly. -/
def writeUpgradeAuthFailure (auth : GatewayAuthResult) : String :=
  if auth.rateLimited then
    let retryAfterSeconds : Option Nat :=
      match auth.retryAfterMs with
      | some ms => if 0 < ms then some ((ms + 999) / 1000) else none
      | none => none
    let parts : List (Option String) :=
      [some ("HTTP/1.1 429 Too Many Requests"),
       retryAfterSeconds.map (fun s => ("Retry-After: " : String) ++ toString s),
       some ("Content-Type: application/json; charset=utf-8"),
       some ("Connection: close"),
       some (""),
       some rateLimitedBodyJson]
    String.intercalate ("\r\n") ((parts.filterMap id).filter (fun s => !(s == ("" : String))))
  else
    "HTTP/1.1 401 Unauthorized\r\nConnection: close\r\n\r\n"

/-- Does the character list start with the pattern list? (Helper for
checking the presence of the HTTP header terminator in written bytes.) -/
def listStartsWith : List Char → List Char → Bool
  | _, [] => true
  | [], _ :: _ => false
  | c :: cs, p :: ps => c == p && listStartsWith cs ps

/-- Does the character list contain the pattern list as a contiguous run? -/
def listContainsSeq : List Char → List Char → Bool
  | [], p => listStartsWith [] p
  | c :: rest, p => listStartsWith (c :: rest) p || listContainsSeq rest p

/-- Does the string contain the pattern as a substring? Used to test whether
written bytes contain the `CRLF CRLF` header-block terminator. -/
def strContainsSeq (s pat : String) : Bool :=
  listContainsSeq s.data pat.data

/-- The HTTP header-block terminator. -/
def headerTerminator : String := "\r\n\r\n"

/-- Translation of `isGatewayHealthPath` from `server-http.ts`. -/
def isGatewayHealthPath (pathname : String) : Bool :=
  pathname == ("/healthz" : String) || pathname == ("/health" : String)

/-- The canvas path constants `A2UI_PATH`, `CANVAS_HOST_PATH` and
`CANVAS_WS_PATH` imported from `canvas-host/a2ui.ts` (not in the corpus),
taken as parameters. -/
structure CanvasPaths where
  a2uiPath : String
  canvasHostPath : String
  canvasWsPath : String
deriving DecidableEq, Repr

/-- Translation of `isCanvasPath` from `server-http.ts`. -/
def isCanvasPath (p : CanvasPaths) (pathname : String) : Bool :=
  pathname == p.a2uiPath
    || pathname.startsWith (p.a2uiPath ++ ("/" : String))
    || pathname == p.canvasHostPath
    || pathname.startsWith (p.canvasHostPath ++ ("/" : String))
    || pathname == p.canvasWsPath

/-- The result of `normalizeCanvasScopedUrl` (from
`gateway/canvas-capability.ts`, not in the corpus): a possibly rewritten URL,
a possibly extracted capability token, and the malformed flag. Taken as an
input at each call site. -/
structure ScopedCanvas where
  rewrittenUrl : Option String := none
  capability : Option String := none
  malformedScopedPath : Bool := false

/-- A minimal HTTP response: status, headers, body. -/
structure HttpResponse where
  status : Nat
  headers : List (String × String)
  body : String
deriving DecidableEq, Repr

/-- The `500 Internal Server Error` response written by the catch-all in
`handleRequest`. -/
def internalErrorResponse : HttpResponse :=
  { status := 500
    headers := [(("Content-Type" : String), ("text/plain; charset=utf-8" : String))]
    body := "Internal Server Error" }

/-- The `404 Not Found` response written when no handler claims a request. -/
def notFoundResponse : HttpResponse :=
  { status := 404
    headers := [(("Content-Type" : String), ("text/plain; charset=utf-8" : String))]
    body := "Not Found" }

/-- Which point in `handleRequest`'s dispatch chain terminated the request. -/
inductive RouteOutcome where
  | upgradeIgnored
  | authFailure (verdict : GatewayAuthResult)
  | methodNotAllowed
  | health
  | hooks
  | toolsInvoke
  | slack
  | plugin
  | openResponses
  | openAiChat
  | a2ui
  | canvasHost
  | controlUiAvatar
  | controlUi
  | notFound
  | internalError
deriving DecidableEq, Repr

/-- All inputs `handleRequest` consumes, with each downstream handler as an
oracle that either throws (modelling a rejected promise) or reports whether
it fully handled the request. `preFail` models a throw from the ingress
logic itself before dispatch (config load / URL parsing). `requestPath` is
the pathname of the (possibly rewritten) request URL; `channelsAuth` is the
result of the `authorizeGatewayConnect` call guarding `/api/channels/`
routes. The `agc` … `clients` fields are the inputs of the canvas-gate call
to `authorizeCanvasRequest`. -/
structure RouterCtx where
  isUpgradeWebsocket : Bool
  preFail : Option String := none
  scopedCanvas : ScopedCanvas
  requestPath : String
  method : String
  hooksHandles : Except String Bool
  toolsHandles : Except String Bool
  slackHandles : Except String Bool
  hasPluginHandler : Bool
  channelsAuth : GatewayAuthResult
  pluginHandles : Except String Bool
  openResponsesEnabled : Bool
  openResponsesHandles : Except String Bool
  openAiChatCompletionsEnabled : Bool
  openAiHandles : Except String Bool
  hasCanvasHost : Bool
  canvasPaths : CanvasPaths
  agc : AuthorizeGatewayConnect
  modeIsNode : Option String → Bool
  ttlMs : Nat
  nowMs : Nat
  resolvedAuth : ResolvedGatewayAuth
  isLocalDirect : Bool
  bearerToken : Option String
  clients : List GatewayWsClient
  a2uiHandles : Except String Bool
  canvasHostHandles : Except String Bool
  controlUiEnabled : Bool
  controlAvatarHandles : Except String Bool
  controlUiHandles : Except String Bool

/-- The canvas-gate verdict computed inside the router: the first component
of `authorizeCanvasRequest` applied to the context's inputs. -/
def routerCanvasVerdict (ctx : RouterCtx) : GatewayAuthResult :=
  (authorizeCanvasRequest ctx.agc ctx.modeIsNode ctx.ttlMs ctx.nowMs ctx.resolvedAuth
    ctx.isLocalDirect ctx.bearerToken ctx.clients ctx.scopedCanvas.capability
    ctx.scopedCanvas.malformedScopedPath).1

/-- The control-dashboard tail of the dispatch chain plus the final 404. -/
def dispatchControlUi (ctx : RouterCtx) : Except String RouteOutcome :=
  if ctx.controlUiEnabled then
    match ctx.controlAvatarHandles with
    | .error e => .error e
    | .ok true => .ok .controlUiAvatar
    | .ok false =>
    match ctx.controlUiHandles with
    | .error e => .error e
    | .ok true => .ok .controlUi
    | .ok false => .ok .notFound
  else .ok .notFound

/-- The body of `handleRequest`'s `try` block, translated with each early
`return` as the claimed outcome and each `await` of a throwing handler as an
`Except.error`. -/
def dispatch (ctx : RouterCtx) : Except String RouteOutcome :=
  match ctx.preFail with
  | some e => .error e
  | none =>
  if ctx.scopedCanvas.malformedScopedPath then .ok (.authFailure unauthorizedVerdict)
  else if isGatewayHealthPath ctx.requestPath then
    if !(ctx.method == ("GET" : String)) then .ok .methodNotAllowed
    else .ok .health
  else match ctx.hooksHandles with
  | .error e => .error e
  | .ok true => .ok .hooks
  | .ok false =>
  match ctx.toolsHandles with
  | .error e => .error e
  | .ok true => .ok .toolsInvoke
  | .ok false =>
  match ctx.slackHandles with
  | .error e => .error e
  | .ok true => .ok .slack
  | .ok false =>
  let afterPlugin : Except String (Option RouteOutcome) :=
    if ctx.hasPluginHandler then
      if ctx.requestPath.startsWith ("/api/channels/") && !ctx.channelsAuth.ok then
        .ok (some (.authFailure ctx.channelsAuth))
      else
        match ctx.pluginHandles with
        | .error e => .error e
        | .ok true => .ok (some .plugin)
        | .ok false => .ok none
    else .ok none
  match afterPlugin with
  | .error e => .error e
  | .ok (some o) => .ok o
  | .ok none =>
  match (if ctx.openResponsesEnabled then ctx.openResponsesHandles else .ok false) with
  | .error e => .error e
  | .ok true => .ok .openResponses
  | .ok false =>
  match (if ctx.openAiChatCompletionsEnabled then ctx.openAiHandles else .ok false) with
  | .error e => .error e
  | .ok true => .ok .openAiChat
  | .ok false =>
  if ctx.hasCanvasHost then
    if isCanvasPath ctx.canvasPaths ctx.requestPath && !(routerCanvasVerdict ctx).ok then
      .ok (.authFailure (routerCanvasVerdict ctx))
    else match ctx.a2uiHandles with
    | .error e => .error e
    | .ok true => .ok .a2ui
    | .ok false =>
    match ctx.canvasHostHandles with
    | .error e => .error e
    | .ok true => .ok .canvasHost
    | .ok false => dispatchControlUi ctx
  else dispatchControlUi ctx


/-- Translation of `handleRequest` from `server-http.ts`: ignore WebSocket upgrade
requests, then run the dispatch chain with the catch-all converting any
thrown error into the opaque 500 outcome. -/
def handleRequest (ctx : RouterCtx) : RouteOutcome :=
  if ctx.isUpgradeWebsocket then .upgradeIgnored
  else
    match dispatch ctx with
    | .ok o => o
    | .error _ => .internalError

/-- The response the ingress layer itself writes for a given outcome;
`none` for outcomes whose response is written externally (a claiming
downstream handler, or `sendGatewayAuthFailure`). -/
def routeResponse : RouteOutcome → Option HttpResponse
  | .health =>
    some { status := 200
           headers := [(("Content-Type" : String), ("application/json; charset=utf-8" : String))]
           body := "\x7b\"ok\":true,\"status\":\"ok\",\"service\":\"openclaw-gateway\"\x7d" }
  | .methodNotAllowed =>
    some { status := 405
           headers := [(("Allow" : String), ("GET" : String)),
                       (("Content-Type" : String), ("text/plain; charset=utf-8" : String))]
           body := "Method Not Allowed" }
  | .notFound => some notFoundResponse
  | .internalError => some internalErrorResponse
  | _ => none

/-- A stage of the spec's router chain: it may throw, claim the request with
an outcome, or decline (`none`). -/
def RouterStage : Type := Except String (Option RouteOutcome)

/-- Written from the spec's words (§4.6): the health-check stage claims every
health path, answering 405 to non-GET methods and the health payload to GET. -/
def stageHealth (ctx : RouterCtx) : RouterStage :=
  .ok (if isGatewayHealthPath ctx.requestPath then
        some (if !(ctx.method == ("GET" : String)) then .methodNotAllowed else .health)
      else none)

/-- A downstream handler as a spec router stage: it claims the request iff it
reports it handled, and propagates a throw. -/
def stageOfHandler (handles : Except String Bool) (o : RouteOutcome) : RouterStage :=
  handles.map (fun b => if b then some o else none)

/-- Written from the spec's words (§4.6): the plugin-routes stage, present
only when a plugin handler is installed, with the gateway re-authorization
step applied exactly when the path starts with `/api/channels/`. -/
def stagePlugin (ctx : RouterCtx) : RouterStage :=
  if ctx.hasPluginHandler then
    if ctx.requestPath.startsWith ("/api/channels/") && !ctx.channelsAuth.ok then
      .ok (some (.authFailure ctx.channelsAuth))
    else stageOfHandler ctx.pluginHandles .plugin
  else .ok none

/-- A feature-flagged model-completion proxy as a spec router stage. -/
def stageFlagged (enabled : Bool) (handles : Except String Bool) (o : RouteOutcome) :
    RouterStage :=
  if enabled then stageOfHandler handles o else .ok none

/-- Written from the spec's words (§4.6): the canvas-host stage, present only
when a canvas host is installed; canvas-scoped paths are gated by the Auth
Resolver, then the a2ui handler and the canvas host handler are tried. -/
def stageCanvas (ctx : RouterCtx) : RouterStage :=
  if ctx.hasCanvasHost then
    if isCanvasPath ctx.canvasPaths ctx.requestPath && !(routerCanvasVerdict ctx).ok then
      .ok (some (.authFailure (routerCanvasVerdict ctx)))
    else
      match stageOfHandler ctx.a2uiHandles .a2ui with
      | .error e => .error e
      | .ok (some o) => .ok (some o)
      | .ok none => stageOfHandler ctx.canvasHostHandles .canvasHost
  else .ok none

/-- Written from the spec's words (§4.6): the control-dashboard stage,
present only when the control UI is enabled: avatar routes, then the
static/API routes. -/
def stageControlUi (ctx : RouterCtx) : RouterStage :=
  if ctx.controlUiEnabled then
    match stageOfHandler ctx.controlAvatarHandles .controlUiAvatar with
    | .error e => .error e
    | .ok (some o) => .ok (some o)
    | .ok none => stageOfHandler ctx.controlUiHandles .controlUi
  else .ok none

/-- The documented fixed priority order of the router chain, as data:
health-check → hooks → tool invocation → Slack webhook relay → plugin routes
→ the two feature-flagged model-completion proxies → canvas host → control
dashboard. -/
def specStages (ctx : RouterCtx) : List RouterStage :=
  [stageHealth ctx,
   stageOfHandler ctx.hooksHandles .hooks,
   stageOfHandler ctx.toolsHandles .toolsInvoke,
   stageOfHandler ctx.slackHandles .slack,
   stagePlugin ctx,
   stageFlagged ctx.openResponsesEnabled ctx.openResponsesHandles .openResponses,
   stageFlagged ctx.openAiChatCompletionsEnabled ctx.openAiHandles .openAiChat,
   stageCanvas ctx,
   stageControlUi ctx]

/-- Stop at the first stage that claims the request; respond 404 when no
stage claims it; propagate the first throw. -/
def firstClaim : List RouterStage → Except String RouteOutcome
  | [] => .ok .notFound
  | s :: rest =>
    match s with
    | .error e => .error e
    | .ok (some o) => .ok o
    | .ok none => firstClaim rest

/-- The router as the spec documents it: ignore WebSocket upgrades, fail
closed on a malformed scoped path before any stage runs, then dispatch
through the documented stage list in order, converting any throw into the
opaque 500 outcome. -/
def specRouterOutcome (ctx : RouterCtx) : RouteOutcome :=
  if ctx.isUpgradeWebsocket then .upgradeIgnored
  else
    match ctx.preFail with
    | some _ => .internalError
    | none =>
      if ctx.scopedCanvas.malformedScopedPath then .authFailure unauthorizedVerdict
      else
        match firstClaim (specStages ctx) with
        | .ok o => o
        | .error _ => .internalError

/-- How the handling of one upgrade event terminates. `deniedDestroyed`
carries the exact bytes written to the raw socket before `socket.destroy()`;
`errorDestroyed` is the `.catch` that destroys the socket on a thrown
error. -/
inductive UpgradeOutcome where
  | deniedDestroyed (written : String)
  | canvasHostHandled
  | wsUpgraded
  | errorDestroyed
deriving DecidableEq, Repr

/-- All inputs the upgrade handler consumes; `pathname` is the pathname of
the (possibly rewritten) request URL, `preFail` models a throw from the
config load, and the `agc` … `clients` fields are the inputs of the canvas
WebSocket endpoint's call to `authorizeCanvasRequest`. -/
structure UpgradeCtx where
  scopedCanvas : ScopedCanvas
  hasCanvasHost : Bool
  pathname : String
  canvasPaths : CanvasPaths
  preFail : Option String := none
  agc : AuthorizeGatewayConnect
  modeIsNode : Option String → Bool
  ttlMs : Nat
  nowMs : Nat
  resolvedAuth : ResolvedGatewayAuth
  isLocalDirect : Bool
  bearerToken : Option String
  clients : List GatewayWsClient
  canvasHostUpgradeHandles : Except String Bool

/-- The canvas-WS-endpoint verdict computed inside the upgrade handler. -/
def upgradeCanvasVerdict (ctx : UpgradeCtx) : GatewayAuthResult :=
  (authorizeCanvasRequest ctx.agc ctx.modeIsNode ctx.ttlMs ctx.nowMs ctx.resolvedAuth
    ctx.isLocalDirect ctx.bearerToken ctx.clients ctx.scopedCanvas.capability
    ctx.scopedCanvas.malformedScopedPath).1

/-- The tail of the upgrade handler once authorization (if any) has passed:
offer the upgrade to the canvas host, else hand it to the gateway WS
server. -/
def upgradeTail (ctx : UpgradeCtx) : Except String UpgradeOutcome :=
  if ctx.hasCanvasHost then
    match ctx.canvasHostUpgradeHandles with
    | .error e => .error e
    | .ok true => .ok .canvasHostHandled
    | .ok false => .ok .wsUpgraded
  else .ok .wsUpgraded

/-- The body of the async IIFE in `attachGatewayUpgradeHandler`. -/
def upgradeDispatch (ctx : UpgradeCtx) : Except String UpgradeOutcome :=
  if ctx.scopedCanvas.malformedScopedPath then
    .ok (.deniedDestroyed (writeUpgradeAuthFailure unauthorizedVerdict))
  else if ctx.hasCanvasHost then
    if ctx.pathname == ctx.canvasPaths.canvasWsPath then
      match ctx.preFail with
      | some e => .error e
      | none =>
        let ok := upgradeCanvasVerdict ctx
        if !ok.ok then .ok (.deniedDestroyed (writeUpgradeAuthFailure ok))
        else upgradeTail ctx
    else upgradeTail ctx
  else .ok .wsUpgraded

/-- The `upgrade` listener attached by `attachGatewayUpgradeHandler`: run the
dispatch, destroying the socket on any thrown error. -/
def upgradeHandler (ctx : UpgradeCtx) : UpgradeOutcome :=
  match upgradeDispatch ctx with
  | .ok o => o
  | .error _ => .errorDestroyed

theorem hasAuth_fst_eq_any (modeIsNode : Option String → Bool) (ttlMs nowMs : Nat)
    (clients : List GatewayWsClient) (capability : String) :
    (hasAuthorizedNodeWsClientForCanvasCapability modeIsNode ttlMs nowMs clients capability).1 =
      clients.any (capMatches modeIsNode nowMs capability) := by
  induction clients with
  | nil => rfl
  | cons c rest ih =>
    by_cases h : capMatches modeIsNode nowMs capability c = true
    · simp [hasAuthorizedNodeWsClientForCanvasCapability, h]
    · simp only [Bool.not_eq_true] at h
      simp [hasAuthorizedNodeWsClientForCanvasCapability, h, ih]

theorem hasAuth_no_match_unchanged (modeIsNode : Option String → Bool) (ttlMs nowMs : Nat)
    (clients : List GatewayWsClient) (capability : String)
    (h : ∀ c ∈ clients, capMatches modeIsNode nowMs capability c = false) :
    hasAuthorizedNodeWsClientForCanvasCapability modeIsNode ttlMs nowMs clients capability =
      (false, clients) := by
  induction clients with
  | nil => rfl
  | cons c rest ih =>
    have hc : capMatches modeIsNode nowMs capability c = false := h c (by simp)
    have hrest : ∀ d ∈ rest, capMatches modeIsNode nowMs capability d = false := by
      intro d hd
      exact h d (by simp [hd])
    simp [hasAuthorizedNodeWsClientForCanvasCapability, hc, ih hrest]

theorem hasAuth_first_match_renewed (modeIsNode : Option String → Bool) (ttlMs nowMs : Nat)
    (capability : String) (pre : List GatewayWsClient) (c : GatewayWsClient)
    (post : List GatewayWsClient)
    (hpre : ∀ d ∈ pre, capMatches modeIsNode nowMs capability d = false)
    (hc : capMatches modeIsNode nowMs capability c = true) :
    hasAuthorizedNodeWsClientForCanvasCapability modeIsNode ttlMs nowMs
        (pre ++ c :: post) capability =
      (true, pre ++ renewClient ttlMs nowMs c :: post) := by
  induction pre with
  | nil => simp [hasAuthorizedNodeWsClientForCanvasCapability, hc]
  | cons d rest ih =>
    have hd : capMatches modeIsNode nowMs capability d = false := hpre d (by simp)
    have hrest : ∀ e ∈ rest, capMatches modeIsNode nowMs capability e = false := by
      intro e he
      exact hpre e (by simp [he])
    simp [hasAuthorizedNodeWsClientForCanvasCapability, hd, ih hrest]

/-- C1: the capability check returns true iff some session in the set is
node-class, holds a truthy capability token with stored expiry strictly
after the current time, and whose stored token equals the presented token
under the Secret Comparator; on the first such matching session the expiry
is set to now + TTL and true is returned; if no session matches, false is
returned and the session set is unchanged. -/
theorem claim_C1_capability_check (modeIsNode : Option String → Bool) (ttlMs nowMs : Nat)
    (clients : List GatewayWsClient) (capability : String) :
    ((hasAuthorizedNodeWsClientForCanvasCapability modeIsNode ttlMs nowMs clients capability).1 =
        clients.any (capMatches modeIsNode nowMs capability))
    ∧ (clients.any (capMatches modeIsNode nowMs capability) = false →
        hasAuthorizedNodeWsClientForCanvasCapability modeIsNode ttlMs nowMs clients capability =
          (false, clients))
    ∧ (∀ pre c post, clients = pre ++ c :: post →
        (∀ d ∈ pre, capMatches modeIsNode nowMs capability d = false) →
        capMatches modeIsNode nowMs capability c = true →
        hasAuthorizedNodeWsClientForCanvasCapability modeIsNode ttlMs nowMs clients capability =
          (true, pre ++ renewClient ttlMs nowMs c :: post)) := by
  refine ⟨hasAuth_fst_eq_any modeIsNode ttlMs nowMs clients capability, ?_, ?_⟩
  · intro h
    apply hasAuth_no_match_unchanged
    intro c hc
    have := List.any_eq_false.mp h c hc
    simpa using this
  · intro pre c post hdec hpre hc
    subst hdec
    exact hasAuth_first_match_renewed modeIsNode ttlMs nowMs capability pre c post hpre hc

/-- A concrete node session used by witnesses: capability token `"T"`,
expiry 5000ms (granted at time 0 with TTL 5000). -/
def sampleNodeClient : GatewayWsClient :=
  { role := "node", clientMode := none, canvasCapability := some ("T" : String),
    canvasCapabilityExpiresAtMs := some 5000 }

/-- Witness for C1, instantiating the spec's own example: with TTL 5000ms, a
request presenting `"T"` at t=4000 succeeds and extends the expiry to 9000;
at t=6001 (no renewal having occurred) it fails and leaves the set
unchanged. -/
theorem claim_C1_witness :
    hasAuthorizedNodeWsClientForCanvasCapability (fun _ => false) 5000 4000
        [sampleNodeClient] ("T" : String) =
      (true, [{ sampleNodeClient with canvasCapabilityExpiresAtMs := some 9000 }])
    ∧ hasAuthorizedNodeWsClientForCanvasCapability (fun _ => false) 5000 6001
        [sampleNodeClient] ("T" : String) =
      (false, [sampleNodeClient]) := by
  constructor
  · have h := (claim_C1_capability_check (fun _ => false) 5000 4000 [sampleNodeClient]
      ("T" : String)).2.2 [] sampleNodeClient [] rfl (by simp) (by decide)
    simpa [renewClient, sampleNodeClient] using h
  · have h := (claim_C1_capability_check (fun _ => false) 5000 6001 [sampleNodeClient]
      ("T" : String)).2.1 (by decide)
    exact h

/-- C2: when no session in the set stores the presented capability token —
in particular after the session that held it was removed on disconnect — the
capability check returns false and renews nothing, for any clock and TTL. -/
theorem claim_C2_disconnect_revokes (modeIsNode : Option String → Bool) (ttlMs nowMs : Nat)
    (clients : List GatewayWsClient) (capability : String)
    (h : ∀ c ∈ clients, c.canvasCapability ≠ some capability) :
    hasAuthorizedNodeWsClientForCanvasCapability modeIsNode ttlMs nowMs clients capability =
      (false, clients) := by
  apply hasAuth_no_match_unchanged
  intro c hc
  have hne := h c hc
  cases hcap : c.canvasCapability with
  | none => simp [capMatches, jsFalsyStr, hcap]
  | some s =>
    have hs : s ≠ capability := by
      intro he
      exact hne (by rw [hcap, he])
    simp [capMatches, safeEqualSecret, jsFalsyStr, hcap, hs]

/-- Witness for C2: at t=1000, well inside the original TTL window of
`sampleNodeClient`'s token `"T"`, a set from which that session is gone (only
a session holding `"U"` remains) denies `"T"` and is left unchanged. -/
theorem claim_C2_witness :
    hasAuthorizedNodeWsClientForCanvasCapability (fun _ => false) 5000 1000
        [{ sampleNodeClient with canvasCapability := some ("U" : String) }] ("T" : String) =
      (false, [{ sampleNodeClient with canvasCapability := some ("U" : String) }]) := by
  exact claim_C2_disconnect_revokes (fun _ => false) 5000 1000
    [{ sampleNodeClient with canvasCapability := some ("U" : String) }] ("T" : String)
    (by decide)

/-- A node session whose stored expiry (7000) exceeds now (1000) + TTL
(5000): a successful match rewrites its expiry down to 6000. -/
def overlongClient : GatewayWsClient :=
  { role := "node", clientMode := none, canvasCapability := some ("T" : String),
    canvasCapabilityExpiresAtMs := some 7000 }

/-- Counterexample to C6 as stated: a successful capability match against a
session whose prior expiry is 7000, at now = 1000 with TTL = 5000, rewrites
the stored expiry to 6000 — strictly smaller than before the match. -/
theorem claim_C6_counterexample :
    capMatches (fun _ => false) 1000 ("T" : String) overlongClient = true
    ∧ (hasAuthorizedNodeWsClientForCanvasCapability (fun _ => false) 5000 1000
        [overlongClient] ("T" : String)).1 = true
    ∧ ((hasAuthorizedNodeWsClientForCanvasCapability (fun _ => false) 5000 1000
          [overlongClient] ("T" : String)).2.headD overlongClient).canvasCapabilityExpiresAtMs.getD 0
        < overlongClient.canvasCapabilityExpiresAtMs.getD 0 := by
  decide

/-- C6 (amended): on a successful capability match the matched session's
expiry becomes now + TTL, which is an extension (never a shortening)
provided the prior expiry was at most now + TTL — as is the case for every
expiry the registry itself ever stores. -/
theorem claim_C6_amended (modeIsNode : Option String → Bool) (ttlMs nowMs : Nat)
    (capability : String) (pre : List GatewayWsClient) (c : GatewayWsClient)
    (post : List GatewayWsClient)
    (hpre : ∀ d ∈ pre, capMatches modeIsNode nowMs capability d = false)
    (hc : capMatches modeIsNode nowMs capability c = true)
    (hbound : c.canvasCapabilityExpiresAtMs.getD 0 ≤ nowMs + ttlMs) :
    hasAuthorizedNodeWsClientForCanvasCapability modeIsNode ttlMs nowMs
        (pre ++ c :: post) capability =
      (true, pre ++ renewClient ttlMs nowMs c :: post)
    ∧ c.canvasCapabilityExpiresAtMs.getD 0
        ≤ (renewClient ttlMs nowMs c).canvasCapabilityExpiresAtMs.getD 0 := by
  refine ⟨hasAuth_first_match_renewed modeIsNode ttlMs nowMs capability pre c post hpre hc, ?_⟩
  simpa [renewClient] using hbound

/-- Witness for the amended C6: the spec's example — prior expiry 5000, match
at t=4000 with TTL 5000 — extends the expiry to 9000 ≥ 5000. -/
theorem claim_C6_witness :
    hasAuthorizedNodeWsClientForCanvasCapability (fun _ => false) 5000 4000
        [sampleNodeClient] ("T" : String) =
      (true, [renewClient 5000 4000 sampleNodeClient])
    ∧ sampleNodeClient.canvasCapabilityExpiresAtMs.getD 0
        ≤ (renewClient 5000 4000 sampleNodeClient).canvasCapabilityExpiresAtMs.getD 0 := by
  have h := claim_C6_amended (fun _ => false) 5000 4000 ("T" : String) [] sampleNodeClient []
    (by simp) (by decide) (by decide)
  simpa using h

/-- C4: for a non-malformed request satisfying the trusted-proxy/local-direct
rule, the resolver authorizes immediately: the verdict is `{ ok: true }`, the
session set is returned untouched, and the result does not depend on the
gateway connect check (and hence the rate limiter), the bearer credential, or
the capability token — all of which are universally quantified. -/
theorem claim_C4_trusted_proxy_bypass (agc : AuthorizeGatewayConnect)
    (modeIsNode : Option String → Bool) (ttlMs nowMs : Nat) (auth : ResolvedGatewayAuth)
    (bearerToken : Option String) (clients : List GatewayWsClient)
    (canvasCapability : Option String) :
    authorizeCanvasRequest agc modeIsNode ttlMs nowMs auth true bearerToken clients
        canvasCapability false = ({ ok := true }, clients) := by
  simp [authorizeCanvasRequest]

/-- C3: a malformed scoped path fails closed everywhere, before anything else
runs. (1) The HTTP path: for every router context (hence for every behaviour
of every downstream handler, including throwing ones), a malformed flag makes
`handleRequest` answer the bare unauthorized failure. (2) The upgrade path:
the handler writes the 401 bytes and destroys the socket, for every context.
(3) The resolver: called with the malformed flag it denies immediately,
independent of the trusted-proxy rule, the gateway connect check (and hence
the rate limiter), and the session set, which is returned untouched. -/
theorem claim_C3_malformed_fail_closed :
    (∀ ctx : RouterCtx,
      handleRequest { ctx with
          isUpgradeWebsocket := false
          preFail := none
          scopedCanvas := { ctx.scopedCanvas with malformedScopedPath := true } } =
        .authFailure unauthorizedVerdict)
    ∧ (∀ ctx : UpgradeCtx,
      upgradeHandler { ctx with
          scopedCanvas := { ctx.scopedCanvas with malformedScopedPath := true } } =
        .deniedDestroyed (writeUpgradeAuthFailure unauthorizedVerdict))
    ∧ (∀ (agc : AuthorizeGatewayConnect) (modeIsNode : Option String → Bool)
        (ttlMs nowMs : Nat) (auth : ResolvedGatewayAuth) (isLocalDirect : Bool)
        (bearerToken : Option String) (clients : List GatewayWsClient)
        (canvasCapability : Option String),
      authorizeCanvasRequest agc modeIsNode ttlMs nowMs auth isLocalDirect bearerToken
          clients canvasCapability true = (unauthorizedVerdict, clients)) := by
  refine ⟨?_, ?_, ?_⟩
  · intro ctx
    simp [handleRequest, dispatch]
  · intro ctx
    simp [upgradeHandler, upgradeDispatch]
  · intro agc modeIsNode ttlMs nowMs auth isLocalDirect bearerToken clients canvasCapability
    simp [authorizeCanvasRequest]

/-- C5: the resolver's ordered short-circuit and denial preference (stated
for non-malformed, non-local-direct requests, where the bearer/capability
logic runs). (1) A truthy bearer credential is tried first — as both the
connect token and the connect password — and on success its verdict is
returned at once, with the session set untouched and the capability token
never consulted (it is universally quantified). (2) Only when the bearer
check fails is an extracted capability token consulted; a valid token yields
`{ ok: true }` together with the renewed session set. (3) When the bearer
check fails and the capability misses (or none was extracted), the verdict
is exactly the bearer check's concrete denial — so a rate-limited bearer
denial survives the capability miss. (4) With no truthy bearer credential
and no capability hit, the verdict is the bare unauthorized one. -/
theorem claim_C5_resolver_order :
    (∀ (agc : AuthorizeGatewayConnect) (modeIsNode : Option String → Bool)
        (ttlMs nowMs : Nat) (auth : ResolvedGatewayAuth) (t : String)
        (clients : List GatewayWsClient) (canvasCapability : Option String),
      t ≠ "" →
      (agc { auth with allowTailscale := false } { token := t, password := t }).ok = true →
      authorizeCanvasRequest agc modeIsNode ttlMs nowMs auth false (some t) clients
          canvasCapability false =
        (agc { auth with allowTailscale := false } { token := t, password := t }, clients))
    ∧ (∀ (agc : AuthorizeGatewayConnect) (modeIsNode : Option String → Bool)
        (ttlMs nowMs : Nat) (auth : ResolvedGatewayAuth) (t : String)
        (clients : List GatewayWsClient) (cap : String),
      t ≠ "" → cap ≠ "" →
      (agc { auth with allowTailscale := false } { token := t, password := t }).ok = false →
      (hasAuthorizedNodeWsClientForCanvasCapability modeIsNode ttlMs nowMs clients cap).1 = true →
      authorizeCanvasRequest agc modeIsNode ttlMs nowMs auth false (some t) clients
          (some cap) false =
        ({ ok := true },
         (hasAuthorizedNodeWsClientForCanvasCapability modeIsNode ttlMs nowMs clients cap).2))
    ∧ (∀ (agc : AuthorizeGatewayConnect) (modeIsNode : Option String → Bool)
        (ttlMs nowMs : Nat) (auth : ResolvedGatewayAuth) (t : String)
        (clients : List GatewayWsClient) (canvasCapability : Option String),
      t ≠ "" →
      (agc { auth with allowTailscale := false } { token := t, password := t }).ok = false →
      (jsFalsyStr canvasCapability = true
        ∨ (hasAuthorizedNodeWsClientForCanvasCapability modeIsNode ttlMs nowMs clients
            (canvasCapability.getD ("" : String))).1 = false) →
      (authorizeCanvasRequest agc modeIsNode ttlMs nowMs auth false (some t) clients
          canvasCapability false).1 =
        agc { auth with allowTailscale := false } { token := t, password := t })
    ∧ (∀ (agc : AuthorizeGatewayConnect) (modeIsNode : Option String → Bool)
        (ttlMs nowMs : Nat) (auth : ResolvedGatewayAuth) (bearerToken : Option String)
        (clients : List GatewayWsClient) (canvasCapability : Option String),
      jsFalsyStr bearerToken = true →
      (jsFalsyStr canvasCapability = true
        ∨ (hasAuthorizedNodeWsClientForCanvasCapability modeIsNode ttlMs nowMs clients
            (canvasCapability.getD ("" : String))).1 = false) →
      (authorizeCanvasRequest agc modeIsNode ttlMs nowMs auth false bearerToken clients
          canvasCapability false).1 = unauthorizedVerdict) := by
  refine ⟨?_, ?_, ?_, ?_⟩
  · intro agc modeIsNode ttlMs nowMs auth t clients canvasCapability ht hok
    simp [authorizeCanvasRequest, jsFalsyStr, ht, hok]
  · intro agc modeIsNode ttlMs nowMs auth t clients cap ht hcap hfail hhit
    simp [authorizeCanvasRequest, canvasCapabilityStep, jsFalsyStr, ht, hcap, hfail, hhit]
  · intro agc modeIsNode ttlMs nowMs auth t clients canvasCapability ht hfail hmiss
    have hbt : jsFalsyStr (some t) = false := by simp [jsFalsyStr, ht]
    rcases hmiss with hmiss | hmiss
    · simp [authorizeCanvasRequest, canvasCapabilityStep, hbt, hfail, hmiss]
    · by_cases hf : jsFalsyStr canvasCapability = true
      · simp [authorizeCanvasRequest, canvasCapabilityStep, hbt, hfail, hf]
      · simp [authorizeCanvasRequest, canvasCapabilityStep, hbt, hfail, hf, hmiss]
  · intro agc modeIsNode ttlMs nowMs auth bearerToken clients canvasCapability hb hmiss
    rcases hmiss with hmiss | hmiss
    · simp [authorizeCanvasRequest, canvasCapabilityStep, hb, hmiss]
    · by_cases hf : jsFalsyStr canvasCapability = true
      · simp [authorizeCanvasRequest, canvasCapabilityStep, hb, hf]
      · simp [authorizeCanvasRequest, canvasCapabilityStep, hb, hf, hmiss]

/-- A gateway connect check that always reports a rate-limited denial, used
by witnesses. -/
def rateLimitedAgc : AuthorizeGatewayConnect :=
  fun _ _ => { ok := false, reason := some ("rate_limited" : String), rateLimited := true,
               retryAfterMs := some 3000 }

/-- Witness for C5: with a bearer credential `"x"` whose check reports a
rate-limited denial and a capability token `"T"` no session holds, the
resolver returns the rate-limited denial, not a bare unauthorized one; with
no bearer credential at all it returns the bare unauthorized verdict. -/
theorem claim_C5_witness :
    (authorizeCanvasRequest rateLimitedAgc (fun _ => false) 5000 1000
        { mode := "token" } false (some ("x" : String)) [] (some ("T" : String)) false).1 =
      { ok := false, reason := some ("rate_limited" : String), rateLimited := true,
        retryAfterMs := some 3000 }
    ∧ (authorizeCanvasRequest rateLimitedAgc (fun _ => false) 5000 1000
        { mode := "token" } false none [] (some ("T" : String)) false).1 =
      unauthorizedVerdict := by
  constructor
  · have h := claim_C5_resolver_order.2.2.1 rateLimitedAgc (fun _ => false) 5000 1000
      { mode := "token" } ("x" : String) [] (some ("T" : String)) (by decide) rfl
      (Or.inr rfl)
    simpa [rateLimitedAgc] using h
  · exact claim_C5_resolver_order.2.2.2 rateLimitedAgc (fun _ => false) 5000 1000
      { mode := "token" } none [] (some ("T" : String)) rfl (Or.inr rfl)

/-- C10: the canvas resolver's bearer path forces Tailscale implicit trust
off. (1) The resolver's result is invariant under the configured
`allowTailscale` value. (2) The resolver's behaviour depends on the gateway
connect check only through configurations with `allowTailscale = false`: two
checks agreeing on those are indistinguishable to it. -/
theorem claim_C10_tailscale_forced_off :
    (∀ (agc : AuthorizeGatewayConnect) (modeIsNode : Option String → Bool)
        (ttlMs nowMs : Nat) (auth : ResolvedGatewayAuth) (b : Bool) (isLocalDirect : Bool)
        (bearerToken : Option String) (clients : List GatewayWsClient)
        (canvasCapability : Option String) (malformedScopedPath : Bool),
      authorizeCanvasRequest agc modeIsNode ttlMs nowMs { auth with allowTailscale := b }
          isLocalDirect bearerToken clients canvasCapability malformedScopedPath =
        authorizeCanvasRequest agc modeIsNode ttlMs nowMs auth isLocalDirect bearerToken
          clients canvasCapability malformedScopedPath)
    ∧ (∀ (agc₁ agc₂ : AuthorizeGatewayConnect) (modeIsNode : Option String → Bool)
        (ttlMs nowMs : Nat) (auth : ResolvedGatewayAuth) (isLocalDirect : Bool)
        (bearerToken : Option String) (clients : List GatewayWsClient)
        (canvasCapability : Option String) (malformedScopedPath : Bool),
      (∀ (a : ResolvedGatewayAuth) (ca : ConnectAuth), a.allowTailscale = false →
        agc₁ a ca = agc₂ a ca) →
      authorizeCanvasRequest agc₁ modeIsNode ttlMs nowMs auth isLocalDirect bearerToken
          clients canvasCapability malformedScopedPath =
        authorizeCanvasRequest agc₂ modeIsNode ttlMs nowMs auth isLocalDirect bearerToken
          clients canvasCapability malformedScopedPath) := by
  constructor
  · intro agc modeIsNode ttlMs nowMs auth b isLocalDirect bearerToken clients
      canvasCapability malformedScopedPath
    rfl
  · intro agc₁ agc₂ modeIsNode ttlMs nowMs auth isLocalDirect bearerToken clients
      canvasCapability malformedScopedPath h
    have hx := h { auth with allowTailscale := false }
      { token := bearerToken.getD ("" : String), password := bearerToken.getD ("" : String) }
      rfl
    simp [authorizeCanvasRequest, hx]

/-- A gateway connect check authorizing exactly when Tailscale trust is on,
used to witness that the canvas bearer path never sees it on. -/
def tailscaleOnlyAgc : AuthorizeGatewayConnect :=
  fun a _ => { ok := a.allowTailscale }

/-- Witness for C10: a connect check that authorizes exactly under Tailscale
trust is indistinguishable, on the canvas bearer path, from one that always
denies — even when the configured auth has `allowTailscale := true`. -/
theorem claim_C10_witness :
    authorizeCanvasRequest tailscaleOnlyAgc (fun _ => false) 5000 1000
        { mode := "token", allowTailscale := true } false (some ("x" : String)) [] none false =
      authorizeCanvasRequest (fun _ _ => { ok := false }) (fun _ => false) 5000 1000
        { mode := "token", allowTailscale := true } false (some ("x" : String)) [] none false := by
  exact claim_C10_tailscale_forced_off.2 tailscaleOnlyAgc (fun _ _ => { ok := false })
    (fun _ => false) 5000 1000 { mode := "token", allowTailscale := true } false
    (some ("x" : String)) [] none false
    (by intro a ca ht; simp [tailscaleOnlyAgc, ht])

/-- C8: whenever anything in the dispatch chain throws — any downstream
handler oracle or the pre-dispatch ingress logic — the request terminates in
the catch-all outcome, whose response is exactly status 500 with body
`"Internal Server Error"`, independent of the thrown error's content (the
error `e` is quantified and absent from the conclusion). -/
theorem claim_C8_internal_error (ctx : RouterCtx) (e : String)
    (hup : ctx.isUpgradeWebsocket = false) (herr : dispatch ctx = .error e) :
    handleRequest ctx = .internalError
    ∧ routeResponse (handleRequest ctx) =
        some { status := 500
               headers := [(("Content-Type" : String), ("text/plain; charset=utf-8" : String))]
               body := "Internal Server Error" } := by
  have h1 : handleRequest ctx = .internalError := by
    simp [handleRequest, hup, herr]
  exact ⟨h1, by simp [h1, routeResponse, internalErrorResponse]⟩

/-- A concrete router context whose hooks handler throws, used by the C8
witness. Every other handler declines, no optional subsystem is enabled. -/
def sampleRouterCtx : RouterCtx :=
  { isUpgradeWebsocket := false
    preFail := none
    scopedCanvas := {}
    requestPath := "/nope"
    method := "GET"
    hooksHandles := .error ("secret internal detail" : String)
    toolsHandles := .ok false
    slackHandles := .ok false
    hasPluginHandler := false
    channelsAuth := { ok := true }
    pluginHandles := .ok false
    openResponsesEnabled := false
    openResponsesHandles := .ok false
    openAiChatCompletionsEnabled := false
    openAiHandles := .ok false
    hasCanvasHost := false
    canvasPaths := { a2uiPath := "/a2ui", canvasHostPath := "/canvas", canvasWsPath := "/ws" }
    agc := fun _ _ => { ok := false }
    modeIsNode := fun _ => false
    ttlMs := 5000
    nowMs := 0
    resolvedAuth := { mode := "token" }
    isLocalDirect := false
    bearerToken := none
    clients := []
    a2uiHandles := .ok false
    canvasHostHandles := .ok false
    controlUiEnabled := false
    controlAvatarHandles := .ok false
    controlUiHandles := .ok false }

/-- Witness for C8: a hooks handler that throws a message never sees that
message reach the response — the outcome is the fixed opaque 500. -/
theorem claim_C8_witness :
    handleRequest sampleRouterCtx = .internalError
    ∧ routeResponse (handleRequest sampleRouterCtx) =
        some { status := 500
               headers := [(("Content-Type" : String), ("text/plain; charset=utf-8" : String))]
               body := "Internal Server Error" } := by
  exact claim_C8_internal_error sampleRouterCtx ("secret internal detail" : String) rfl rfl

/-- The rate-limited verdict used as C9's failing input: retryAfterMs =
1500ms, so the Retry-After header must read 2 seconds. -/
def rateLimitedVerdict : GatewayAuthResult :=
  { ok := false, reason := some ("rate_limited" : String), rateLimited := true,
    retryAfterMs := some 1500 }

set_option maxRecDepth 100000 in
/-- C9, evaluated at the failing input: the rate-limited branch writes the
429 status line, the Retry-After header rounded up to 2 seconds, the
Content-Type and Connection headers and the JSON body — but, because the
source's `.filter(Boolean)` also drops the empty separator line, with only a
single CRLF before the body and no CRLF CRLF header-block terminator
anywhere, so the bytes do not form an HTTP response carrying that JSON body.
The non-rate-limited branch, by contrast, writes a well-terminated bare 401.
A verdict with absent or non-positive retryAfterMs omits the header. -/
theorem claim_C9_rate_limited_bytes :
    writeUpgradeAuthFailure rateLimitedVerdict =
      ("HTTP/1.1 429 Too Many Requests\r\nRetry-After: 2\r\nContent-Type: application/json; charset=utf-8\r\nConnection: close\r\n")
        ++ rateLimitedBodyJson
    ∧ strContainsSeq (writeUpgradeAuthFailure rateLimitedVerdict) headerTerminator = false
    ∧ writeUpgradeAuthFailure { ok := false, rateLimited := true, retryAfterMs := none } =
      ("HTTP/1.1 429 Too Many Requests\r\nContent-Type: application/json; charset=utf-8\r\nConnection: close\r\n")
        ++ rateLimitedBodyJson
    ∧ writeUpgradeAuthFailure unauthorizedVerdict =
      "HTTP/1.1 401 Unauthorized\r\nConnection: close\r\n\r\n"
    ∧ strContainsSeq (writeUpgradeAuthFailure unauthorizedVerdict) headerTerminator = true := by
  refine ⟨by decide, by decide, by decide, by decide, by decide⟩

theorem firstClaim_cons (s : RouterStage) (rest : List RouterStage) :
    firstClaim (s :: rest) =
      match s with
      | .error e => .error e
      | .ok (some o) => .ok o
      | .ok none => firstClaim rest := rfl

theorem stageStep_handler (h : Except String Bool) (o : RouteOutcome)
    (k : Except String RouteOutcome) (rest : List RouterStage)
    (hk : k = firstClaim rest) :
    (match h with
      | .error e => .error e
      | .ok true => .ok o
      | .ok false => k) =
      firstClaim (stageOfHandler h o :: rest) := by
  cases h with
  | error e => simp [stageOfHandler, firstClaim_cons, Except.map]
  | ok b => cases b <;> simp [stageOfHandler, firstClaim_cons, Except.map, hk]

theorem stageStep_health (ctx : RouterCtx) (k : Except String RouteOutcome)
    (rest : List RouterStage) (hk : k = firstClaim rest) :
    (if isGatewayHealthPath ctx.requestPath then
        if !(ctx.method == ("GET" : String)) then .ok .methodNotAllowed
        else .ok .health
      else k) =
      firstClaim (stageHealth ctx :: rest) := by
  by_cases hh : isGatewayHealthPath ctx.requestPath
  · cases hm : (ctx.method == ("GET" : String)) <;>
      simp [stageHealth, firstClaim_cons, hh, hm]
  · simp [stageHealth, firstClaim_cons, hh, hk]

theorem stageStep_plugin (ctx : RouterCtx) (k : Except String RouteOutcome)
    (rest : List RouterStage) (hk : k = firstClaim rest) :
    (match (if ctx.hasPluginHandler then
              if ctx.requestPath.startsWith ("/api/channels/") && !ctx.channelsAuth.ok then
                Except.ok (some (RouteOutcome.authFailure ctx.channelsAuth))
              else
                match ctx.pluginHandles with
                | .error e => .error e
                | .ok true => .ok (some .plugin)
                | .ok false => .ok none
            else Except.ok none) with
      | .error e => .error e
      | .ok (some o) => .ok o
      | .ok none => k) =
      firstClaim (stagePlugin ctx :: rest) := by
  by_cases hp : ctx.hasPluginHandler
  · by_cases hg : ctx.requestPath.startsWith ("/api/channels/") && !ctx.channelsAuth.ok
    · simp [stagePlugin, firstClaim_cons, hp, hg]
    · cases hpl : ctx.pluginHandles with
      | error e => simp [stagePlugin, stageOfHandler, firstClaim_cons, hp, hg, hpl, Except.map]
      | ok b =>
        cases b <;>
          simp [stagePlugin, stageOfHandler, firstClaim_cons, hp, hg, hpl, Except.map, hk]
  · simp [stagePlugin, firstClaim_cons, hp, hk]

theorem stageStep_flagged (enabled : Bool) (h : Except String Bool) (o : RouteOutcome)
    (k : Except String RouteOutcome) (rest : List RouterStage)
    (hk : k = firstClaim rest) :
    (match (if enabled then h else Except.ok false) with
      | .error e => .error e
      | .ok true => .ok o
      | .ok false => k) =
      firstClaim (stageFlagged enabled h o :: rest) := by
  cases enabled with
  | false => simp [stageFlagged, firstClaim_cons, hk]
  | true =>
    cases h with
    | error e => simp [stageFlagged, stageOfHandler, firstClaim_cons, Except.map]
    | ok b => cases b <;> simp [stageFlagged, stageOfHandler, firstClaim_cons, Except.map, hk]

theorem stageStep_controlUi (ctx : RouterCtx) :
    dispatchControlUi ctx = firstClaim [stageControlUi ctx] := by
  by_cases hcu : ctx.controlUiEnabled
  · cases hav : ctx.controlAvatarHandles with
    | error e =>
      simp [dispatchControlUi, stageControlUi, stageOfHandler, firstClaim, hcu, hav, Except.map]
    | ok b =>
      cases b with
      | true =>
        simp [dispatchControlUi, stageControlUi, stageOfHandler, firstClaim, hcu, hav, Except.map]
      | false =>
        cases hui : ctx.controlUiHandles with
        | error e =>
          simp [dispatchControlUi, stageControlUi, stageOfHandler, firstClaim, hcu, hav, hui,
            Except.map]
        | ok b2 =>
          cases b2 <;>
            simp [dispatchControlUi, stageControlUi, stageOfHandler, firstClaim, hcu, hav, hui,
              Except.map]
  · simp [dispatchControlUi, stageControlUi, firstClaim, hcu]

theorem stageStep_canvas (ctx : RouterCtx) (k : Except String RouteOutcome)
    (rest : List RouterStage) (hk : k = firstClaim rest) :
    (if ctx.hasCanvasHost then
        if isCanvasPath ctx.canvasPaths ctx.requestPath && !(routerCanvasVerdict ctx).ok then
          .ok (.authFailure (routerCanvasVerdict ctx))
        else
          match ctx.a2uiHandles with
          | .error e => .error e
          | .ok true => .ok .a2ui
          | .ok false =>
            match ctx.canvasHostHandles with
            | .error e => .error e
            | .ok true => .ok .canvasHost
            | .ok false => k
      else k) =
      firstClaim (stageCanvas ctx :: rest) := by
  by_cases hcv : ctx.hasCanvasHost
  · by_cases hg : isCanvasPath ctx.canvasPaths ctx.requestPath && !(routerCanvasVerdict ctx).ok
    · simp [stageCanvas, firstClaim_cons, hcv, hg]
    · cases ha : ctx.a2uiHandles with
      | error e => simp [stageCanvas, stageOfHandler, firstClaim_cons, hcv, hg, ha, Except.map]
      | ok b =>
        cases b with
        | true => simp [stageCanvas, stageOfHandler, firstClaim_cons, hcv, hg, ha, Except.map]
        | false =>
          cases hch : ctx.canvasHostHandles with
          | error e =>
            simp [stageCanvas, stageOfHandler, firstClaim_cons, hcv, hg, ha, hch, Except.map]
          | ok b2 =>
            cases b2 <;>
              simp [stageCanvas, stageOfHandler, firstClaim_cons, hcv, hg, ha, hch, Except.map,
                hk]
  · simp [stageCanvas, firstClaim_cons, hcv, hk]

theorem dispatch_eq_spec (ctx : RouterCtx) (hpre : ctx.preFail = none)
    (hmal : ctx.scopedCanvas.malformedScopedPath = false) :
    dispatch ctx = firstClaim (specStages ctx) := by
  unfold dispatch
  rw [hpre]
  simp only [specStages, hmal, Bool.false_eq_true, if_false]
  exact stageStep_health ctx _ _
    (stageStep_handler ctx.hooksHandles .hooks _ _
      (stageStep_handler ctx.toolsHandles .toolsInvoke _ _
        (stageStep_handler ctx.slackHandles .slack _ _
          (stageStep_plugin ctx _ _
            (stageStep_flagged ctx.openResponsesEnabled ctx.openResponsesHandles .openResponses _ _
              (stageStep_flagged ctx.openAiChatCompletionsEnabled ctx.openAiHandles .openAiChat _ _
                (stageStep_canvas ctx _ _
                  (stageStep_controlUi ctx))))))))

/-- C7: the request router follows exactly the documented dispatch contract:
for every non-upgrade request it tries health-check, hooks, tool invocation,
the Slack webhook relay, plugin routes (re-authorizing exactly the
`/api/channels/` prefix), the two feature-flagged model-completion proxies,
the auth-gated canvas host, and the control dashboard, in that order as
given by the `specStages` list, stops at the first stage that claims the
request, and falls through to 404 when none does — `handleRequest` equals
the spec-level first-claiming dispatcher on every context. -/
theorem claim_C7_router_order (ctx : RouterCtx) :
    handleRequest ctx = specRouterOutcome ctx := by
  unfold handleRequest specRouterOutcome
  cases hup : ctx.isUpgradeWebsocket with
  | true => simp
  | false =>
    simp only [Bool.false_eq_true, if_false]
    cases hpre : ctx.preFail with
    | some e => simp [dispatch, hpre]
    | none =>
      by_cases hmal : ctx.scopedCanvas.malformedScopedPath = true
      · simp [dispatch, hpre, hmal]
      · have hmal' : ctx.scopedCanvas.malformedScopedPath = false := by
          simpa using hmal
        rw [dispatch_eq_spec ctx hpre hmal', hmal']
        simp
